import Mathlib

/-!
Verification of the turn orchestration engine of the rpg-ai-game backend.

The Python sources embedded here are:
  * `backend/app/api/routes/games.py` — the DB-backed turn engine
    (`roll_initiative`, `play_player_turn`, `play_ai_turn`);
  * `backend/app/main.py` — the earlier in-memory iteration
    (`game_action` recovery ladder, `choose_option`).

Modelling conventions:
  * UUIDs are modelled as `Nat` (only equality is used on them).
  * Python floats are modelled as `Rat`.  Because the library operations
    `Rat.mul`/`Rat.add`/`Rat.sub` are `@[irreducible]`, the embedding uses
    kernel-computable `mkRat`-based helpers (`ratMul`, `ratAdd`, `ratSub`,
    `ratOfInt`); they are proved equal to the `ℚ` field operations below.
  * Randomness (`random.randint`) is injected as an explicit argument.
  * The Ollama client call and the external parsing libraries (pydantic
    `model_validate_json`, `ast.literal_eval`, `re.search`) are injected as
    oracle arguments: the repository only composes their results.
  * The entity store (`crud.update_*` / `create_history_entry`) is modelled
    by explicit state passing on `GameState`; a raised exception returns the
    state exactly as committed so far, which is how the per-call `commit`s
    in `crud.py` behave.  The `History`/`Game` columns used by `games.py`
    (`action_role`, `actual_turn`, `successed_turns`, `max_successed_turns`)
    are taken from their uses in `games.py`; their model declarations are
    missing from the snapshot of `models.py`, so the record shapes follow
    the spec (§3) there.
-/

namespace RpgGame

/-- Python truthiness of an optional string: `None` and `""` are falsy. -/
def pyFalsyStr : Option String → Bool
  | none => true
  | some s => s == ""

/-- Python `dict.get(key, default)` on a string-keyed integer dict. -/
def pyDictGetD (d : List (String × Int)) (k : String) (dflt : Int) : Int :=
  match d.find? (fun kv => kv.1 == k) with
  | some kv => kv.2
  | none => dflt

/-- Python `int(...)` applied to a float, modelled on `Rat`: truncation
toward zero. -/
def pyIntOfRat (q : Rat) : Int := Int.tdiv q.num (q.den : Int)

/-- Kernel-computable embedding of the cast `Int → Rat`. -/
def ratOfInt (n : Int) : Rat := mkRat n 1

/-- Kernel-computable embedding of the cast `Nat → Rat`. -/
def ratOfNat (n : Nat) : Rat := mkRat (n : Int) 1

/-- Kernel-computable multiplication on `Rat` (equal to `*`, see
`ratMul_eq`). -/
def ratMul (a b : Rat) : Rat := mkRat (a.num * b.num) (a.den * b.den)

/-- Kernel-computable addition on `Rat` (equal to `+`, see `ratAdd_eq`). -/
def ratAdd (a b : Rat) : Rat := mkRat (a.num * b.den + b.num * a.den) (a.den * b.den)

/-- Kernel-computable subtraction on `Rat` (equal to `-`, see
`ratSub_eq`). -/
def ratSub (a b : Rat) : Rat := mkRat (a.num * b.den - b.num * a.den) (a.den * b.den)

/-- Python `max` on two floats. -/
def pyMax (a b : Rat) : Rat := if a < b then b else a

/-- Python `min` on two floats. -/
def pyMin (a b : Rat) : Rat := if a ≤ b then a else b

/-- Python `str.lower()`, modelled character-wise (ASCII-faithful). -/
def pyLower (s : String) : String := String.mk (s.data.map Char.toLower)

/-- Insertion step of a stable sort: `x` is placed after exactly those
elements that strictly precede it (`lt y x = true`), so ties keep their
input order. -/
def pyInsertSorted (lt : α → α → Bool) (x : α) : List α → List α
  | [] => [x]
  | y :: ys => if lt y x then y :: pyInsertSorted lt x ys else x :: y :: ys

/-- Python `sorted(l, key=...)`: a stable sort, modelled as stable insertion
sort, parametrised by the strict precedence test of the key/reverse pair. -/
def pySorted (lt : α → α → Bool) : List α → List α
  | [] => []
  | x :: xs => pyInsertSorted lt x (pySorted lt xs)

/-- Replace the first element satisfying `test` (in-place dict/object
mutation in Python). -/
def updateFirstBy (test : α → Bool) (f : α → α) : List α → List α
  | [] => []
  | x :: xs => if test x then f x :: xs else x :: updateFirstBy test f xs

/-- The two turn phases of a game (`models.Phase`). -/
inductive Phase
  | AI
  | PLAYER
deriving DecidableEq

/-- Chat roles recorded in history (`models.ChatRole`; declaration missing
from the `models.py` snapshot, shape from spec §3: actor role is USER or
ASSISTANT). -/
inductive ChatRole
  | USER
  | ASSISTANT
deriving DecidableEq

/-- HTTP error classes raised by the routes: 404, 400, 500. -/
inductive Err
  | notFound (msg : String)
  | badRequest (msg : String)
  | internal (msg : String)
deriving DecidableEq

/-- An option as stored in a history `result` JSON payload: a dict whose
keys may individually be absent (`option.get(...)` semantics). -/
structure OptionPayload where
  id : Option Int := none
  description : Option String := none
  success_rate : Option Rat := none
  health_point_change : Option Rat := none
  mana_point_change : Option Rat := none
  related_stat : Option String := none
deriving DecidableEq

/-- The pydantic `Option` model: all fields mandatory. -/
structure OptionModel where
  id : Int
  description : String
  success_rate : Rat
  health_point_change : Rat
  mana_point_change : Rat
  related_stat : String
deriving DecidableEq

/-- The pydantic `AIResponseValidator` model. -/
structure AIResponse where
  narration : String
  options : List OptionModel := []
deriving DecidableEq

/-- `Option.model_dump()`: every key present in the resulting dict. -/
def OptionModel.dump (o : OptionModel) : OptionPayload :=
  { id := some o.id
    description := some o.description
    success_rate := some o.success_rate
    health_point_change := some o.health_point_change
    mana_point_change := some o.mana_point_change
    related_stat := some o.related_stat }

/-- A history `result` payload: the engine always writes both keys
(spec §3: result payload = narration plus ordered option list), so the
`entry.result.get(..., default)` reads in `games.py` never fall back. -/
structure HistoryResult where
  narration : String
  options : List OptionPayload
deriving DecidableEq

/-- `AIResponseValidator.model_dump()`. -/
def AIResponse.dump (r : AIResponse) : HistoryResult :=
  { narration := r.narration, options := r.options.map OptionModel.dump }

/-- A history row as used by `games.py` (id and timestamp are never read by
the engine and are omitted). -/
structure History where
  game_id : Nat
  player_id : Option Nat
  action_role : ChatRole
  success : Option Bool
  result : HistoryResult
deriving DecidableEq

/-- The scenario columns read by the engine. -/
structure Scenario where
  id : Nat
  name : String
  description : String
  objectives : String
  context : String
deriving DecidableEq

/-- The game columns used by `games.py`. -/
structure Game where
  id : Nat
  scenario_id : Nat
  actual_turn : Nat
  active : Bool
  current_player_id : Option Nat
  phase : Phase
  successed_turns : Nat
  max_successed_turns : Nat
deriving DecidableEq

/-- A player row (`models.Player`). -/
structure Player where
  id : Nat
  display_name : String
  role : String
  initiative : Int
  order : Nat
  alive : Bool
  stats : List (String × Int)
  hp : Rat
  mp : Rat
deriving DecidableEq

/-- The store state visible to one game's routes: the game row, its
scenario (if the foreign key resolves), its players and its history in
creation order. -/
structure GameState where
  game : Game
  scenario : Option Scenario
  players : List Player
  history : List History
deriving DecidableEq

/-- One chat message sent to the narrator. -/
structure Msg where
  role : ChatRole
  content : String
deriving DecidableEq

/-- The rendering of `models.AIResponseValidator.model_json_schema()`.
This string is produced by the external pydantic library; its exact text is
never inspected by the engine, so it is modelled as an abstract constant. -/
def aiSchemaStr : String := "<AIResponseValidator JSON schema>"

/-- The `json_exemple` literal built at the top of `play_ai_turn`
(`games.py` lines 194-222). -/
def json_exemple : AIResponse :=
  { narration := "Vous entrez dans une taverne sombre et enfumée, où l\x27odeur de la bière et du bois vieilli emplit l\x27air. Au fond de la pièce, un groupe de mercenaires discute à voix basse autour d\x27une table. Ils semblent nerveux, jetant des regards furtifs vers la porte."
    options :=
      [ { id := 1
          description := "Vous vous approchez du groupe de mercenaires et demandez s\x27ils ont besoin d\x27aide."
          success_rate := mkRat 7 10
          health_point_change := 0
          mana_point_change := 0
          related_stat := "courage" }
      , { id := 2
          description := "Vous décidez de rester à l\x27écart et d\x27observer le groupe pour en apprendre plus sur eux."
          success_rate := mkRat 5 10
          health_point_change := 0
          mana_point_change := 0
          related_stat := "intelligence" }
      , { id := 3
          description := "Vous commandez une boisson au bar et essayez de vous mêler aux autres clients pour recueillir des informations."
          success_rate := mkRat 6 10
          health_point_change := 0
          mana_point_change := 0
          related_stat := "charisme" } ] }

/-- The rendering of `json_exemple.model_dump()` interpolated into the
prompt.  The Python `repr` of the dump is an external library rendering;
the engine never reads it back, so it is modelled as an abstract
constant. -/
def aiExampleStr : String := "<json_exemple model dump>"

/-- Python `repr` of a string-keyed integer dict (used when interpolating
`player.stats` into the turn-0 prompt). -/
def pyDictIntReprGo : List (String × Int) → String
  | [] => ""
  | [(k, v)] => "\x27" ++ k ++ "\x27: " ++ toString v
  | (k, v) :: rest => "\x27" ++ k ++ "\x27: " ++ toString v ++ ", " ++ pyDictIntReprGo rest

/-- Python `repr` of a string-keyed integer dict. -/
def pyDictIntRepr (d : List (String × Int)) : String :=
  "\x7b" ++ pyDictIntReprGo d ++ "\x7d"

/-- The two prompt lines describing one player in the turn-0 prompt
(`games.py` lines 240-242; float rendering approximated by `Rat`
rendering). -/
def playerLine (p : Player) : String :=
  "\t" ++ p.display_name ++ ", un " ++ p.role ++ " avec " ++ toString p.hp
    ++ " points de vie et " ++ toString p.mp ++ " points de mana. \n"
    ++ "\t\tLes statistiques de " ++ p.display_name ++ " sont : "
    ++ pyDictIntRepr p.stats ++ " et initiative " ++ toString p.initiative ++ ". \n"

/-- The full turn-0 prompt (`games.py` lines 238-244 and 256). -/
def turn0Prompt (scen : Scenario) (players : List Player) (actual : Player) : String :=
  "Le scénario est le suivant : " ++ scen.context ++ ".\n\n"
    ++ "Les joueurs sont : \n"
    ++ String.join (players.map playerLine)
    ++ "\n\nSouhaite la **bienvenue aux joueurs** en **introduisant le scénario** et en **rappelant aux joueurs pourquoi ils sont là**, décris la scène en donnant les infos d\x27où les joueurs sont et ce que les joueurs voient, puis propose des options d\x27actions possibles au joueur en cours.\n"
    ++ "\n\nRéponds en français strictement au format JSON demandé, sans rien ajouter d\x27autre.\n\nLe schema est le suivant:\n" ++ aiSchemaStr
    ++ "\nC\x27est le tour de " ++ actual.display_name ++ ", qui a l\x27initiative la plus haute. "

/-- The five-tier progression message (`games.py` lines 321-333). -/
def progressionMsg (pp : Rat) : String :=
  if pp < 25 then "Les joueurs sont encore loin de l\x27objectif !"
  else if pp < 50 then "Grâce aux derniers succès, les joueurs se rapprochent de la mi-chemin l\x27objectif !"
  else if pp < 75 then "Grâce aux derniers succès, les joueurs se rapprochent de l\x27objectif !"
  else if pp < 90 then "Grâce aux derniers succès, les joueurs atteignent l\x27objectif !"
  else "Grâce aux derniers succès, les joueurs ont atteint l\x27objectif et terminent ce scnario !"

/-- The instruction block appended to the last replayed message on a
turn > 0 AI turn (`games.py` lines 348-352). -/
def aiPosTail (scen : Scenario) (pm : String) : String :=
  "\n\nTon rôle est de diriger une aventure interactive avec exploration, énigmes et combats obligatoires. N\x27évites jamais un conflit ou un combat, au contraire, rends-les épiques et engageants. Sois descriptif dans tes narrations pour immerger les joueurs dans l\x27univers. Propose toujours des options d\x27actions variées et intéressantes, en lien avec le contexte et les personnages des joueurs."
    ++ "\n\nRappel de l\x27objectif : " ++ scen.objectives ++ ". " ++ pm ++ "\n"
    ++ "\n\nRéponds en français strictement au format JSON demandé, sans rien ajouter d\x27autre.\n\nLe schema est le suivant:\n" ++ aiSchemaStr
    ++ "\n\nN\x27utilise que des doubles quotes \" pour les clés et les valeurs.\n\n"
    ++ "\n\nVoici un exemple de réponse au format JSON attendu:\n" ++ aiExampleStr ++ "\n\n"

/-- The templated narration recorded for a resolved player turn
(`games.py` line 158). -/
def playerTurnNarration (name : String) (oid : Int) (desc : String) (success : Bool) : String :=
  name ++ " choisit l\x27option " ++ toString oid ++ ": " ++ desc ++ ". "
    ++ (if success then "C\x27est un succès !" else "Malheureusement, C\x27est un échec...")

/-- Assign `order := index + 1` along a list (`games.py` lines 70-72). -/
def assignOrders : List Player → Nat → List Player
  | [], _ => []
  | p :: rest, i => { p with order := i + 1 } :: assignOrders rest (i + 1)

/-- `POST /game/id/roll_initiative` (`games.py` lines 49-78), with the
per-player `random.randint(1, 20)` draws injected as `draws` (one per
player, in stored player order). -/
def roll_initiative (draws : List Int) (st : GameState) : GameState × Option Err :=
  if st.players.isEmpty then
    (st, some (Err.notFound ("No players found for this game")))
  else
    let updated := List.zipWith
      (fun p d => { p with initiative := d + pyDictGetD p.stats "dexterity" 0 }) st.players draws
    let sortedP := pySorted (fun a b => decide (b.initiative < a.initiative)) updated
    let ordered := assignOrders sortedP 0
    match ordered with
    | [] => (st, some (Err.internal ("IndexError")))
    | first :: rest =>
      ({ st with players := first :: rest,
                 game := { st.game with current_player_id := some first.id } }, none)

/-- `POST /game/id/player_turn` (`games.py` lines 91-182), with the
`randint(1, 100)` outcome draw injected as `roll`.

The `option_success_rate is None` check of lines 136-137 is unreachable:
once an option matched, the rate is `option.get("success_rate", 1.0)`, never
`None`; with no match the description check of lines 133-134 fires first. -/
def play_player_turn (roll : Int) (option_id : Int) (st : GameState) : GameState × Option Err :=
  if st.game.phase == Phase.PLAYER then
    match st.players.find? (fun p => some p.id == st.game.current_player_id) with
    | none => (st, some (Err.internal ("Current player not found")))
    | some actual_player =>
      match st.history.getLast? with
      | none => (st, some (Err.notFound ("No history found for this game")))
      | some last_entry =>
        match last_entry.result.options.find? (fun o => o.id == some option_id) with
        | none => (st, some (Err.badRequest ("Invalid option selected")))
        | some chosen =>
          if pyFalsyStr chosen.description then
            (st, some (Err.badRequest ("Invalid option selected")))
          else
            let option_description := chosen.description.getD ""
            let option_success_rate : Rat := chosen.success_rate.getD 1
            let threshold : Int := pyIntOfRat (ratMul option_success_rate 100)
            let success : Bool := decide (roll ≤ threshold)
            let entry : History :=
              { game_id := st.game.id
                player_id := some actual_player.id
                action_role := ChatRole.USER
                success := some true
                result :=
                  { narration := playerTurnNarration actual_player.display_name option_id
                      option_description success
                    options := [] } }
            let players_sorted := pySorted (fun a b => decide (a.order < b.order)) st.players
            let g1 : Game := { st.game with phase := Phase.AI }
            let g2 : Game :=
              match players_sorted.findIdx? (fun p => p.id == actual_player.id) with
              | none => g1
              | some i =>
                let nextP := players_sorted.getD ((i + 1) % players_sorted.length) actual_player
                { g1 with current_player_id := some nextP.id }
            let g3 : Game :=
              if success then { g2 with successed_turns := g2.successed_turns + 1 } else g2
            ({ st with history := st.history ++ [entry], game := g3 }, none)
  else
    (st, some (Err.badRequest ("It\x27s not the player\x27s turn")))

/-- The validation ladder of the turn > 0 AI branch (`games.py` lines
368-382): strict pydantic JSON parse, then `ast.literal_eval` plus pydantic
re-validation, else failure.  Both external parsers are injected. -/
def validateAiRaw (pStrict pLit : String → Option AIResponse) (raw : String) :
    Except String AIResponse :=
  match pStrict raw with
  | some ai => Except.ok ai
  | none =>
    match pLit raw with
    | some ai => Except.ok ai
    | none => Except.error ("Invalid response format from AI (after fallback)")

/-- The opening (prompt) history entry written on turn 0 before the
narrator is called (`games.py` lines 261-272). -/
def promptEntry (gid : Nat) (prompt : String) : History :=
  { game_id := gid
    player_id := none
    action_role := ChatRole.USER
    success := some true
    result := { narration := prompt, options := [] } }

/-- The turn-0 branch of `play_ai_turn` (`games.py` lines 229-309).
`chat` is the injected narrator call: `Except.error` models the client
raising, `Except.ok raw` the raw response content.  `pStrict` is the
injected pydantic strict parse. -/
def ai_turn_zero (pStrict : String → Option AIResponse) (chat : Except String String)
    (st : GameState) : GameState × Option Err :=
  match st.scenario with
  | none => (st, some (Err.notFound ("Scenario not found for this game")))
  | some scen =>
    match st.players.find? (fun p => some p.id == st.game.current_player_id) with
    | none => (st, some (Err.internal ("Current player not found")))
    | some actual_player =>
      let prompt := turn0Prompt scen st.players actual_player
      let st1 := { st with history := st.history ++ [promptEntry st.game.id prompt] }
      match chat with
      | Except.error e => (st1, some (Err.internal e))
      | Except.ok raw =>
        match pStrict raw with
        | none => (st1, some (Err.internal ("Invalid response format from AI")))
        | some ai =>
          let aiEntry : History :=
            { game_id := st.game.id
              player_id := st.game.current_player_id
              action_role := ChatRole.ASSISTANT
              success := some true
              result := ai.dump }
          let st2 := { st1 with history := st1.history ++ [aiEntry] }
          ({ st2 with game :=
              { st.game with actual_turn := st.game.actual_turn + 1, phase := Phase.PLAYER } },
           none)

/-- Message replay for a turn > 0 AI call (`games.py` lines 335-354),
recursing over the history with the last entry (value equality, matching
pydantic `==`) receiving the instruction tail; the scenario-missing check
of lines 343-347 lives inside this loop. -/
def buildMessagesGo (scenario : Option Scenario) (pm : String) (lastE : History) :
    List History → Except Err (List Msg)
  | [] => Except.ok []
  | e :: rest =>
    let content := e.result.narration
    if content == "" then buildMessagesGo scenario pm lastE rest
    else if e == lastE then
      match scenario with
      | none => Except.error (Err.notFound ("Scenario not found for this game"))
      | some scen =>
        match buildMessagesGo scenario pm lastE rest with
        | Except.error er => Except.error er
        | Except.ok ms => Except.ok ({ role := e.action_role, content := content ++ aiPosTail scen pm } :: ms)
    else
      match buildMessagesGo scenario pm lastE rest with
      | Except.error er => Except.error er
      | Except.ok ms => Except.ok ({ role := e.action_role, content := content } :: ms)

/-- Message replay for a turn > 0 AI call over the whole history. -/
def buildMessages (scenario : Option Scenario) (pm : String) (entries : List History) :
    Except Err (List Msg) :=
  match entries.getLast? with
  | none => Except.ok []
  | some lastE => buildMessagesGo scenario pm lastE entries

/-- The accepted-response tail of the turn > 0 AI branch (`games.py` lines
400-433): append the narrator entry, bump the turn, flip the phase and
advance the current player by stored order; a missing current player raises
after the history append but before `update_game`, so only the append
commits. -/
def aiPosProceed (ai : AIResponse) (st : GameState) : GameState × Option Err :=
  let aiEntry : History :=
    { game_id := st.game.id
      player_id := st.game.current_player_id
      action_role := ChatRole.ASSISTANT
      success := some true
      result := ai.dump }
  let st1 := { st with history := st.history ++ [aiEntry] }
  let players_sorted := pySorted (fun a b => decide (a.order < b.order)) st.players
  match players_sorted.find? (fun p => some p.id == st.game.current_player_id) with
  | none => (st1, some (Err.internal ("Current player not found")))
  | some actual_player =>
    let g1 : Game :=
      { st.game with actual_turn := st.game.actual_turn + 1, phase := Phase.PLAYER }
    let g2 : Game :=
      match players_sorted.findIdx? (fun p => p.id == actual_player.id) with
      | none => g1
      | some i =>
        let nextP := players_sorted.getD ((i + 1) % players_sorted.length) actual_player
        { g1 with current_player_id := some nextP.id }
    ({ st1 with game := g2 }, none)

/-- The turn > 0 branch of `play_ai_turn` (`games.py` lines 311-433).
A zero `max_successed_turns` makes the progression computation of line 316
raise `ZeroDivisionError` before anything else is touched. -/
def ai_turn_pos (pStrict pLit : String → Option AIResponse) (chat : Except String String)
    (st : GameState) : GameState × Option Err :=
  if st.game.max_successed_turns == 0 then
    (st, some (Err.internal ("ZeroDivisionError")))
  else
    -- progression_percents = successed_turns / max_successed_turns * 100
    match buildMessages st.scenario
        (progressionMsg (ratMul (mkRat (st.game.successed_turns : Int)
          st.game.max_successed_turns) 100)) st.history with
    | Except.error er => (st, some er)
    | Except.ok _msgs =>
      match chat with
      | Except.error e => (st, some (Err.internal e))
      | Except.ok raw =>
        match validateAiRaw pStrict pLit raw with
        | Except.error m => (st, some (Err.internal m))
        | Except.ok ai =>
          let repeated : Bool :=
            match st.history.getLast? with
            | none => false
            | some lastE => pyLower ai.narration == pyLower lastE.result.narration
          if repeated then
            (st, some (Err.internal ("AI response narration is identical to the last one, which is invalid.")))
          else
            aiPosProceed ai st

/-- `POST /game/id/ai_turn` (`games.py` lines 185-437). -/
def play_ai_turn (pStrict pLit : String → Option AIResponse) (chat : Except String String)
    (st : GameState) : GameState × Option Err :=
  if st.game.phase == Phase.AI then
    if st.game.actual_turn == 0 then ai_turn_zero pStrict chat st
    else ai_turn_pos pStrict pLit chat st
  else
    (st, some (Err.badRequest ("It\x27s not the AI\x27s turn")))

/-- A `Character` of the earlier in-memory iteration (`main.py` lines
56-64). -/
structure Character where
  id : String
  player_id : String
  display_name : String
  role : String
  stats : List (String × Int)
  hp : Rat
  mp : Rat
deriving DecidableEq

/-- The dice-roll record stored by `choose_option` (`main.py` lines
722-726). -/
structure DiceRollR where
  roll : Int
  success : Bool
  narration : String
deriving DecidableEq

/-- One history dict of the in-memory `Game.history` (`main.py` lines
355-367 for the keys written by `game_action`, lines 746-750 for the keys
added by `choose_option`). -/
structure MainAction where
  actor : String
  action : String
  ai_narration : String
  options : List OptionPayload
  chosen_option : Option Int := none
  dice_roll : Option DiceRollR := none
  adjusted_success_rate : Option Rat := none
  stat_used : Option String := none
  stat_value : Option Int := none
deriving DecidableEq

/-- The in-memory `Game` of `main.py` (lines 67-75; timestamps omitted). -/
structure MainGame where
  id : String
  scenario_id : String
  players : List Character
  turn : Nat
  history : List MainAction
  active : Bool
deriving DecidableEq

/-- `create_fallback_response` (`main.py` lines 271-297): the canned
narration plus two generic options (whitespace of the Python multiline
f-string condensed). -/
def create_fallback_response (playerName action : String) : AIResponse :=
  { narration := playerName ++ " tente de " ++ pyLower action
      ++ ", mais quelque chose ne se passe pas comme prévu... La jungle semble réagir à votre présence. Des bruits étranges résonnent entre les arbres, et une odeur métallique flotte dans l\x27air. Vous devez décider de votre prochaine action."
    options :=
      [ { id := 1
          description := "Explorer prudemment les alentours pour trouver des indices"
          success_rate := mkRat 7 10
          health_point_change := 0
          mana_point_change := 0
          related_stat := "intelligence" }
      , { id := 2
          description := "Se diriger vers la source des bruits étranges"
          success_rate := mkRat 4 10
          health_point_change := mkRat (-1) 10
          mana_point_change := 0
          related_stat := "courage" } ] }

/-- The recovery ladder of `game_action` (`main.py` lines 336-352): strict
parse of the raw text; on failure a regex search for a brace-delimited
block (injected as `findJsonBlock`, modelling `re.search` of a dot-all
brace pattern), whose strict parse failing aborts with the 500 error of
line 349-352; the canned fallback is built only when no block is found. -/
def game_action_validate (pStrict : String → Option AIResponse)
    (findJsonBlock : String → Option String) (fallback : AIResponse) (raw : String) :
    Except String AIResponse :=
  match pStrict raw with
  | some parsed => Except.ok parsed
  | none =>
    match findJsonBlock raw with
    | some block =>
      match pStrict block with
      | some parsed => Except.ok parsed
      | none => Except.error ("Impossible de traiter la réponse de l\x27IA")
    | none => Except.ok fallback

/-- The option lookup of `choose_option` (`main.py` lines 695-698):
`int(opt["id"]) == option_id` over the stored dicts; a dict without an
`id` key raises `KeyError` before any later match is considered. -/
def findOptById : List OptionPayload → Int → Except String (Option OptionPayload)
  | [], _ => Except.ok none
  | o :: rest, oid =>
    match o.id with
    | none => Except.error ("KeyError: id")
    | some i => if i == oid then Except.ok (some o) else findOptById rest oid

/-- `POST /games/id/choose` (`main.py` lines 675-754), with the
`random.randint(1, 20)` draw injected as `roll20` (only consulted when the
adjusted success rate is below one half). -/
def choose_option (roll20 : Int) (player_id : String) (option_id : Int) (g : MainGame) :
    MainGame × Option Err :=
  match g.players.find? (fun p => p.player_id == player_id) with
  | none => (g, some (Err.badRequest ("Player not part of this game")))
  | some player =>
    match g.history.getLast? with
    | none => (g, some (Err.badRequest ("No action history found")))
    | some last_action =>
      if last_action.options.isEmpty then
        (g, some (Err.badRequest ("No options available in history")))
      else
        match findOptById last_action.options option_id with
        | Except.error m => (g, some (Err.internal m))
        | Except.ok none => (g, some (Err.badRequest ("Option not found")))
        | Except.ok (some chosen) =>
          match chosen.related_stat with
          | none => (g, some (Err.internal ("KeyError: related_stat")))
          | some rs =>
            match chosen.success_rate with
            | none => (g, some (Err.internal ("KeyError: success_rate")))
            | some base_success_rate =>
              let stat_value := pyDictGetD player.stats rs 10
              let adjusted_success_rate := ratMul base_success_rate (mkRat stat_value 10)
              let dice_roll : Option DiceRollR :=
                if adjusted_success_rate < mkRat 1 2 then
                  let success : Bool :=
                    decide (ratMul (ratSub 1 adjusted_success_rate) 20 ≤ ratOfInt roll20)
                  some { roll := roll20, success := success,
                         narration := "Jet de d20: " ++ toString roll20 ++ "/20. "
                           ++ (if success then "Réussi!" else "Échec...") }
                else none
              let doubled : Bool :=
                match dice_roll with
                | some dr => !dr.success
                | none => false
              let hp_change : Option Rat :=
                if doubled then chosen.health_point_change.map (fun c => ratMul c 2)
                else chosen.health_point_change
              let newHp : Rat :=
                match hp_change with
                | none => player.hp
                | some c => pyMax 0 (pyMin 100 (ratAdd player.hp (ratMul c 100)))
              let newMp : Rat :=
                match chosen.mana_point_change with
                | none => player.mp
                | some c => pyMax 0 (pyMin 100 (ratAdd player.mp (ratMul c 100)))
              let players1 := updateFirstBy (fun p => p.player_id == player_id)
                (fun p => { p with hp := newHp, mp := newMp }) g.players
              let options1 := updateFirstBy (fun o => o.id == some option_id)
                (fun o =>
                  if doubled then
                    { o with health_point_change := o.health_point_change.map (fun c => ratMul c 2) }
                  else o) last_action.options
              let last1 : MainAction :=
                { last_action with
                    options := options1
                    chosen_option := some option_id
                    dice_roll := dice_roll
                    adjusted_success_rate := some adjusted_success_rate
                    stat_used := some rs
                    stat_value := some stat_value }
              ({ g with players := players1, history := g.history.dropLast ++ [last1] }, none)

/-! ## Concrete fixtures used to instantiate the theorems -/

/-- A pending option with a high success rate. -/
def optTalk : OptionPayload :=
  { id := some 1, description := some ("Parler aux mercenaires"),
    success_rate := some (mkRat 9 10), health_point_change := some 0,
    mana_point_change := some 0, related_stat := some ("charisme") }

/-- A pending option with a low success rate. -/
def optSneak : OptionPayload :=
  { id := some 2, description := some ("Se faufiler dans l\x27ombre"),
    success_rate := some (mkRat 1 10), health_point_change := some 0,
    mana_point_change := some 0, related_stat := some ("dexterity") }

/-- A pending option whose dict carries no `success_rate` key. -/
def optNoRate : OptionPayload :=
  { id := some 3, description := some ("Observer la salle") }

/-- A pending option whose dict carries no `description` key. -/
def optNoDesc : OptionPayload :=
  { id := some 4, success_rate := some (mkRat 1 2) }

/-- A pending option with an empty-string description. -/
def optEmptyDesc : OptionPayload :=
  { id := some 5, description := some (""), success_rate := some (mkRat 1 2) }

/-- A guaranteed option with a large negative health delta. -/
def optPotion : OptionPayload :=
  { id := some 1, description := some ("Boire la potion suspecte"),
    success_rate := some 1, health_point_change := some (mkRat (-1) 2),
    mana_point_change := some (mkRat 1 4), related_stat := some ("chance") }

/-- A player currently at the head of the turn order. -/
def alice : Player :=
  { id := 1, display_name := "Alice", role := "Chasseur", initiative := 0,
    order := 1, alive := true, stats := [("dexterity", 5), ("charisme", 14)],
    hp := 100, mp := 100 }

/-- The second player in the turn order. -/
def bruno : Player :=
  { id := 2, display_name := "Bruno", role := "Scientifique", initiative := 0,
    order := 2, alive := true, stats := [("dexterity", 12)], hp := 100, mp := 100 }

/-- A concrete scenario row. -/
def scenIle : Scenario :=
  { id := 7, name := "L\x27ile des dinosaures",
    description := "Une ile mystérieuse", objectives := "Atteindre l\x27héliport",
    context := "Une ile peuplée de dinosaures" }

/-- A narrator-authored history entry carrying the pending options. -/
def histTavern : History :=
  { game_id := 5, player_id := none, action_role := ChatRole.ASSISTANT,
    success := some true,
    result := { narration := "Vous entrez Dans la Taverne",
                options := [optTalk, optSneak, optNoRate, optNoDesc, optEmptyDesc] } }

/-- A player-authored history entry (as appended by a resolved player
turn). -/
def histUserChoice : History :=
  { game_id := 5, player_id := some 1, action_role := ChatRole.USER,
    success := some true,
    result := { narration := "Alice choisit une option", options := [] } }

/-- A game waiting on the player, with pending options on file. -/
def stPlayer : GameState :=
  { game := { id := 5, scenario_id := 7, actual_turn := 1, active := true,
              current_player_id := some 1, phase := Phase.PLAYER,
              successed_turns := 2, max_successed_turns := 10 },
    scenario := some scenIle, players := [alice, bruno], history := [histTavern] }

/-- The same state but in the AI phase. -/
def stAIph : GameState :=
  { stPlayer with game := { stPlayer.game with phase := Phase.AI } }

/-- The same state but with no history at all. -/
def stNoHist : GameState :=
  { stPlayer with history := [] }

/-- A player-phase state whose only pending option is the potion. -/
def stPotion : GameState :=
  { stPlayer with history :=
      [{ histTavern with result := { narration := "Une potion est posée sur la table",
                                     options := [optPotion] } }] }

/-- A fresh game before its first AI turn. -/
def stTurn0 : GameState :=
  { game := { id := 5, scenario_id := 7, actual_turn := 0, active := true,
              current_player_id := some 1, phase := Phase.AI,
              successed_turns := 0, max_successed_turns := 10 },
    scenario := some scenIle, players := [alice, bruno], history := [] }

/-- A game in the AI phase after one completed round. -/
def stAIturn1 : GameState :=
  { stTurn0 with game := { stTurn0.game with actual_turn := 1 },
                 history := [histTavern, histUserChoice] }

/-- A well-formed narrator response. -/
def respBienvenue : AIResponse := { narration := "Bienvenue dans la taverne", options := [] }

/-- A narrator response repeating, case-insensitively, the narration of the
preceding narrator-authored entry `histTavern`. -/
def respRepeatAssistant : AIResponse :=
  { narration := "vous entrez dans la taverne", options := [] }

/-- A narrator response repeating, case-insensitively, the narration of the
last history entry `histUserChoice`. -/
def respRepeatLast : AIResponse :=
  { narration := "ALICE CHOISIT UNE OPTION", options := [] }

/-- A parser oracle that always succeeds with a fixed response. -/
def pSome (r : AIResponse) : String → Option AIResponse := fun _ => some r

/-- A parser oracle that always fails. -/
def pNone : String → Option AIResponse := fun _ => none

/-- A regex oracle that always finds a brace-delimited block. -/
def fjSome : String → Option String := fun _ => some ("bloc")

/-- A regex oracle that finds no brace-delimited block. -/
def fjNone : String → Option String := fun _ => none

/-- A game with no players at all. -/
def stNoPlayers : GameState := { stPlayer with players := [] }

/-- Spec-side characterisation of the hp update performed by
`choose_option`: the delta (scaled by the doubling factor `k`) times 100,
clamped to [0, 100]; no key, no change. -/
def hpAfter (hp k : Rat) (c? : Option Rat) : Rat :=
  match c? with
  | none => hp
  | some c => max 0 (min 100 (hp + k * c * 100))

/-- Spec-side characterisation of the mp update performed by
`choose_option` (never doubled). -/
def mpAfter (mp : Rat) (c? : Option Rat) : Rat :=
  match c? with
  | none => mp
  | some c => max 0 (min 100 (mp + c * 100))

/-- A character of the in-memory iteration. -/
def charAlice : Character :=
  { id := "c1", player_id := "p1", display_name := "Alice", role := "Chasseur",
    stats := [("intelligence", 10)], hp := 100, mp := 40 }

/-- A stored option of the in-memory iteration, with all keys present. -/
def mainOpt : OptionPayload :=
  { id := some 1, description := some ("Explorer"),
    success_rate := some (mkRat 8 10), health_point_change := some (mkRat (-2) 10),
    mana_point_change := some (mkRat 1 10), related_stat := some ("intelligence") }

/-- A history dict of the in-memory iteration carrying `mainOpt`. -/
def mainAct : MainAction :=
  { actor := "p1", action := "explorer", ai_narration := "La jungle", options := [mainOpt] }

/-- An in-memory game ready for `choose_option`. -/
def mainG : MainGame :=
  { id := "g1", scenario_id := "s1", players := [charAlice], turn := 3,
    history := [mainAct], active := true }

/-! ## Helper lemmas -/

theorem ratMul_eq (a b : Rat) : ratMul a b = a * b := by
  rw [ratMul, Rat.mkRat_eq_div]
  push_cast
  rw [← div_mul_div_comm, Rat.num_div_den, Rat.num_div_den]

theorem ratAdd_eq (a b : Rat) : ratAdd a b = a + b := by
  have ha : ((a.den : ℚ)) ≠ 0 := Nat.cast_ne_zero.mpr a.den_nz
  have hb : ((b.den : ℚ)) ≠ 0 := Nat.cast_ne_zero.mpr b.den_nz
  rw [ratAdd, Rat.mkRat_eq_div]
  push_cast
  conv_rhs => rw [← Rat.num_div_den a, ← Rat.num_div_den b]
  rw [div_add_div _ _ ha hb]
  ring_nf

theorem ratSub_eq (a b : Rat) : ratSub a b = a - b := by
  have ha : ((a.den : ℚ)) ≠ 0 := Nat.cast_ne_zero.mpr a.den_nz
  have hb : ((b.den : ℚ)) ≠ 0 := Nat.cast_ne_zero.mpr b.den_nz
  rw [ratSub, Rat.mkRat_eq_div]
  push_cast
  conv_rhs => rw [← Rat.num_div_den a, ← Rat.num_div_den b]
  rw [div_sub_div _ _ ha hb]
  ring_nf

theorem ratOfInt_eq (n : Int) : ratOfInt n = (n : ℚ) := by
  simp [ratOfInt]

theorem ratOfNat_eq (n : Nat) : ratOfNat n = (n : ℚ) := by
  simp [ratOfNat]

theorem pyMax_eq (a b : Rat) : pyMax a b = max a b := by
  rw [pyMax]
  rcases lt_or_ge a b with h | h
  · rw [if_pos h, max_eq_right h.le]
  · rw [if_neg (not_lt.mpr h), max_eq_left h]

theorem pyMin_eq (a b : Rat) : pyMin a b = min a b := by
  rw [pyMin]
  rcases le_or_lt a b with h | h
  · rw [if_pos h, min_eq_left h]
  · rw [if_neg (not_le.mpr h), min_eq_right h.le]

theorem le_pyIntOfRat_iff (n : Int) (q : Rat) (hq : 0 ≤ q) :
    (n ≤ pyIntOfRat q) ↔ ((n : ℚ) ≤ q) := by
  rw [pyIntOfRat, Int.tdiv_eq_ediv (Rat.num_nonneg.mpr hq) (by positivity),
    ← Rat.floor_def, Int.le_floor]

theorem pyInsertSorted_perm (lt : α → α → Bool) (x : α) (l : List α) :
    (pyInsertSorted lt x l).Perm (x :: l) := by
  induction l with
  | nil => simp [pyInsertSorted]
  | cons y ys ih =>
    by_cases h : lt y x = true
    · simp only [pyInsertSorted, h, if_true]
      exact (ih.cons y).trans (List.Perm.swap x y ys)
    · simp [pyInsertSorted, h]

theorem pySorted_perm (lt : α → α → Bool) (l : List α) : (pySorted lt l).Perm l := by
  induction l with
  | nil => simp [pySorted]
  | cons x xs ih => exact (pyInsertSorted_perm lt x (pySorted lt xs)).trans (ih.cons x)

theorem pyInsertSorted_pairwise_initiative (x : Player) (l : List Player)
    (hl : l.Pairwise (fun a b => b.initiative ≤ a.initiative)) :
    (pyInsertSorted (fun a b => decide (b.initiative < a.initiative)) x l).Pairwise
      (fun a b => b.initiative ≤ a.initiative) := by
  induction l with
  | nil => simp [pyInsertSorted]
  | cons y ys ih =>
    rcases List.pairwise_cons.mp hl with ⟨hy, hys⟩
    by_cases h : x.initiative < y.initiative
    · rw [pyInsertSorted, if_pos (by simpa using h)]
      refine List.pairwise_cons.mpr ⟨?_, ih hys⟩
      intro b hb
      have hb' := (pyInsertSorted_perm _ x ys).mem_iff.mp hb
      rcases List.mem_cons.mp hb' with rfl | hmem
      · exact le_of_lt h
      · exact hy b hmem
    · rw [pyInsertSorted, if_neg (by simpa using h)]
      refine List.pairwise_cons.mpr ⟨?_, hl⟩
      intro b hb
      rcases List.mem_cons.mp hb with rfl | hmem
      · exact le_of_not_lt h
      · exact le_trans (hy b hmem) (le_of_not_lt h)

theorem pySorted_pairwise_initiative (l : List Player) :
    (pySorted (fun a b => decide (b.initiative < a.initiative)) l).Pairwise
      (fun a b => b.initiative ≤ a.initiative) := by
  induction l with
  | nil => simp [pySorted]
  | cons x xs ih => exact pyInsertSorted_pairwise_initiative x _ ih

theorem pyInsertSorted_filter_pos (lt : α → α → Bool) (p : α → Bool) (x : α) (l : List α)
    (hx : p x = true) (h : ∀ y, lt y x = true → p y = false) :
    (pyInsertSorted lt x l).filter p = x :: l.filter p := by
  induction l with
  | nil => simp [pyInsertSorted, hx]
  | cons y ys ih =>
    by_cases hyx : lt y x = true
    · have hpy := h y hyx
      simp [pyInsertSorted, hyx, List.filter_cons, hpy, ih]
    · simp [pyInsertSorted, hyx, List.filter_cons, hx]

theorem pyInsertSorted_filter_neg (lt : α → α → Bool) (p : α → Bool) (x : α) (l : List α)
    (hx : p x = false) :
    (pyInsertSorted lt x l).filter p = l.filter p := by
  induction l with
  | nil => simp [pyInsertSorted, hx]
  | cons y ys ih =>
    by_cases hyx : lt y x = true
    · simp [pyInsertSorted, hyx, List.filter_cons, ih]
    · simp [pyInsertSorted, hyx, List.filter_cons, hx]

theorem pySorted_filter (lt : α → α → Bool) (p : α → Bool)
    (hcomp : ∀ x y, p x = true → lt y x = true → p y = false) (l : List α) :
    (pySorted lt l).filter p = l.filter p := by
  induction l with
  | nil => rfl
  | cons x xs ih =>
    by_cases hx : p x = true
    · rw [pySorted, pyInsertSorted_filter_pos lt p x _ hx (fun y hy => hcomp x y hx hy), ih]
      simp [List.filter_cons, hx]
    · have hx' : p x = false := by simpa using hx
      rw [pySorted, pyInsertSorted_filter_neg lt p x _ hx', ih]
      simp [List.filter_cons, hx']

theorem assignOrders_map_order (l : List Player) (i : Nat) :
    (assignOrders l i).map Player.order = List.range' (i + 1) l.length := by
  induction l generalizing i with
  | nil => simp [assignOrders]
  | cons p rest ih => simp [assignOrders, List.range'_succ, ih]

theorem assignOrders_length (l : List Player) (i : Nat) :
    (assignOrders l i).length = l.length := by
  induction l generalizing i with
  | nil => rfl
  | cons p rest ih => simp [assignOrders, ih]

theorem assignOrders_map_initiative (l : List Player) (i : Nat) :
    (assignOrders l i).map Player.initiative = l.map Player.initiative := by
  induction l generalizing i with
  | nil => rfl
  | cons p rest ih => simp [assignOrders, ih]

theorem assignOrders_map_eraseOrder (l : List Player) (i : Nat) :
    (assignOrders l i).map (fun p => { p with order := 0 })
      = l.map (fun p => { p with order := 0 }) := by
  induction l generalizing i with
  | nil => rfl
  | cons p rest ih => simp [assignOrders, ih]

theorem assignOrders_filter_initiative (m : Int) (l : List Player) (i : Nat) :
    ((assignOrders l i).filter (fun x => x.initiative == m)).map Player.id
      = (l.filter (fun x => x.initiative == m)).map Player.id := by
  induction l generalizing i with
  | nil => rfl
  | cons p rest ih =>
    by_cases h : (p.initiative == m) = true
    · simp [assignOrders, List.filter_cons, h, ih]
    · have h' : (p.initiative == m) = false := by simpa using h
      simp [assignOrders, List.filter_cons, h', ih]

theorem buildMessagesGo_isOk (scen : Scenario) (pm : String) (lastE : History)
    (l : List History) : ∃ ms, buildMessagesGo (some scen) pm lastE l = Except.ok ms := by
  induction l with
  | nil => exact ⟨[], rfl⟩
  | cons e rest ih =>
    obtain ⟨ms, hms⟩ := ih
    by_cases h1 : (e.result.narration == "") = true
    · exact ⟨ms, by simp [buildMessagesGo, h1, hms]⟩
    · have h1' : (e.result.narration == "") = false := by simpa using h1
      by_cases h2 : (e == lastE) = true
      · refine ⟨{ role := e.action_role, content := e.result.narration ++ aiPosTail scen pm } :: ms, ?_⟩
        simp [buildMessagesGo, h1', h2, hms]
      · have h2' : (e == lastE) = false := by simpa using h2
        refine ⟨{ role := e.action_role, content := e.result.narration } :: ms, ?_⟩
        simp [buildMessagesGo, h1', h2', hms]

theorem buildMessages_isOk (scen : Scenario) (pm : String) (entries : List History) :
    ∃ ms, buildMessages (some scen) pm entries = Except.ok ms := by
  rw [buildMessages]
  cases h : entries.getLast? with
  | none => exact ⟨[], rfl⟩
  | some lastE => exact buildMessagesGo_isOk scen pm lastE entries

theorem find?_updateFirstBy (test : α → Bool) (f : α → α) (l : List α)
    (hf : ∀ x, test x = true → test (f x) = true) :
    (updateFirstBy test f l).find? test = (l.find? test).map f := by
  induction l with
  | nil => rfl
  | cons x xs ih =>
    by_cases h : test x = true
    · rw [updateFirstBy, if_pos h, List.find?_cons_of_pos _ (hf x h),
        List.find?_cons_of_pos _ h]
      rfl
    · have h' : test x = false := by simpa using h
      rw [updateFirstBy, if_neg (by simp [h']), List.find?_cons_of_neg _ (by simp [h']),
        List.find?_cons_of_neg _ (by simp [h']), ih]

theorem play_player_turn_none_or_id (roll oid : Int) (st : GameState) :
    (play_player_turn roll oid st).2 = none ∨ (play_player_turn roll oid st).1 = st := by
  unfold play_player_turn
  split
  · split
    · right; rfl
    · split
      · right; rfl
      · split
        · right; rfl
        · split
          · right; rfl
          · left; rfl
  · right; rfl

theorem play_player_turn_players (roll oid : Int) (st : GameState) :
    (play_player_turn roll oid st).1.players = st.players := by
  unfold play_player_turn
  split
  · split
    · rfl
    · split
      · rfl
      · split
        · rfl
        · split
          · rfl
          · rfl
  · rfl

theorem ai_turn_zero_none_or (pS : String → Option AIResponse) (chat : Except String String)
    (st : GameState) :
    (ai_turn_zero pS chat st).1.game.phase = Phase.PLAYER
      ∨ (ai_turn_zero pS chat st).2 ≠ none := by
  unfold ai_turn_zero
  repeat' split
  all_goals first
    | (left; rfl)
    | (right; simp)

theorem ai_turn_pos_none_or (pS pL : String → Option AIResponse) (chat : Except String String)
    (st : GameState) :
    (ai_turn_pos pS pL chat st).1.game.phase = Phase.PLAYER
      ∨ (ai_turn_pos pS pL chat st).2 ≠ none := by
  unfold ai_turn_pos
  split
  · right; simp
  · rcases hbm : buildMessages st.scenario
        (progressionMsg (ratMul (mkRat (st.game.successed_turns : Int)
          st.game.max_successed_turns) 100)) st.history with er | ms
    · right; simp
    · rcases chat with e | raw
      · right; simp
      · rcases hv : validateAiRaw pS pL raw with m | ai
        · right; simp [hv]
        · have core : ∀ rep : Bool,
              ((if rep then
                  (st, some (Err.internal ("AI response narration is identical to the last one, which is invalid.")))
                else
                  aiPosProceed ai st) : GameState × Option Err).1.game.phase = Phase.PLAYER
                ∨ (if rep then
                    (st, some (Err.internal ("AI response narration is identical to the last one, which is invalid.")))
                  else
                    aiPosProceed ai st).2 ≠ none := by
            intro rep
            cases rep
            · unfold aiPosProceed
              dsimp only
              repeat' split
              all_goals first
                | (left; rfl)
                | (right; simp)
            · right; simp
          have := core (match st.history.getLast? with
            | none => false
            | some lastE => pyLower ai.narration == pyLower lastE.result.narration)
          simpa [hv] using this

theorem ai_turn_zero_fail_shape (pS : String → Option AIResponse) (chat : Except String String)
    (st : GameState) :
    (ai_turn_zero pS chat st).2 = none
      ∨ ((ai_turn_zero pS chat st).1.game = st.game
          ∧ (ai_turn_zero pS chat st).1.players = st.players
          ∧ ((ai_turn_zero pS chat st).1.history = st.history
              ∨ ∃ he, (ai_turn_zero pS chat st).1.history = st.history ++ [he])) := by
  unfold ai_turn_zero
  dsimp only
  repeat' split
  all_goals first
    | (left; rfl)
    | (right; exact ⟨rfl, rfl, Or.inl rfl⟩)
    | (right; exact ⟨rfl, rfl, Or.inr ⟨_, rfl⟩⟩)

theorem aiPosProceed_fail_shape (ai : AIResponse) (st : GameState) :
    (aiPosProceed ai st).2 = none
      ∨ ((aiPosProceed ai st).1.game = st.game
          ∧ (aiPosProceed ai st).1.players = st.players
          ∧ ((aiPosProceed ai st).1.history = st.history
              ∨ ∃ he, (aiPosProceed ai st).1.history = st.history ++ [he])) := by
  unfold aiPosProceed
  dsimp only
  repeat' split
  all_goals first
    | (left; rfl)
    | (right; exact ⟨rfl, rfl, Or.inr ⟨_, rfl⟩⟩)

theorem ai_turn_pos_fail_shape (pS pL : String → Option AIResponse) (chat : Except String String)
    (st : GameState) :
    (ai_turn_pos pS pL chat st).2 = none
      ∨ ((ai_turn_pos pS pL chat st).1.game = st.game
          ∧ (ai_turn_pos pS pL chat st).1.players = st.players
          ∧ ((ai_turn_pos pS pL chat st).1.history = st.history
              ∨ ∃ he, (ai_turn_pos pS pL chat st).1.history = st.history ++ [he])) := by
  unfold ai_turn_pos
  split
  · right; exact ⟨rfl, rfl, Or.inl rfl⟩
  · rcases hbm : buildMessages st.scenario
        (progressionMsg (ratMul (mkRat (st.game.successed_turns : Int)
          st.game.max_successed_turns) 100)) st.history with er | ms
    all_goals simp only [hbm]
    · simp
    · rcases chat with e | raw
      · right; exact ⟨rfl, rfl, Or.inl rfl⟩
      · rcases hv : validateAiRaw pS pL raw with m | ai
        all_goals simp only [hv]
        · simp
        · split
          · right; exact ⟨rfl, rfl, Or.inl rfl⟩
          · exact aiPosProceed_fail_shape ai st

theorem aiPosProceed_ok_of_current (ai : AIResponse) (st : GameState)
    (hcur : ∃ p ∈ st.players, some p.id = st.game.current_player_id) :
    (aiPosProceed ai st).2 = none := by
  unfold aiPosProceed
  dsimp only
  rcases hf : List.find? (fun p => some p.id == st.game.current_player_id)
      (pySorted (fun a b => decide (a.order < b.order)) st.players) with _ | ap
  · exfalso
    obtain ⟨p, hmem, hid⟩ := hcur
    have hmem' : p ∈ pySorted (fun a b => decide (a.order < b.order)) st.players :=
      (pySorted_perm _ st.players).mem_iff.mpr hmem
    have hsome : (List.find? (fun q => some q.id == st.game.current_player_id)
        (pySorted (fun a b => decide (a.order < b.order)) st.players)).isSome :=
      List.find?_isSome.mpr ⟨p, hmem', by simp [hid]⟩
    rw [hf] at hsome
    simp at hsome
  · simp only [hf]

theorem ai_turn_pos_id_or (pS pL : String → Option AIResponse) (chat : Except String String)
    (st : GameState) (hcur : ∃ p ∈ st.players, some p.id = st.game.current_player_id) :
    (ai_turn_pos pS pL chat st).1 = st ∨ (ai_turn_pos pS pL chat st).2 = none := by
  unfold ai_turn_pos
  split
  · left; rfl
  · rcases hbm : buildMessages st.scenario
        (progressionMsg (ratMul (mkRat (st.game.successed_turns : Int)
          st.game.max_successed_turns) 100)) st.history with er | ms
    all_goals simp only [hbm]
    · simp
    · rcases chat with e | raw
      · left; rfl
      · rcases hv : validateAiRaw pS pL raw with m | ai
        all_goals simp only [hv]
        · simp
        · split
          · left; rfl
          · right
            exact aiPosProceed_ok_of_current ai st hcur

theorem roll_initiative_eq (draws : List Int) (st : GameState)
    (hempty : st.players.isEmpty = false) (f : Player) (r : List Player)
    (hfr : assignOrders (pySorted (fun a b => decide (b.initiative < a.initiative))
        (List.zipWith (fun p d => { p with initiative := d + pyDictGetD p.stats "dexterity" 0 })
          st.players draws)) 0 = f :: r) :
    roll_initiative draws st
      = ({ st with players := f :: r,
                   game := { st.game with current_player_id := some f.id } }, none) := by
  unfold roll_initiative
  rw [if_neg (by simp [hempty])]
  dsimp only
  rw [hfr]

theorem play_player_turn_none_or_phase (roll oid : Int) (st : GameState) :
    (play_player_turn roll oid st).1.game.phase = Phase.AI
      ∨ (play_player_turn roll oid st).2 ≠ none := by
  unfold play_player_turn
  dsimp only
  repeat' split
  all_goals first
    | (left; rfl)
    | (right; simp)

/-! ## Claim theorems -/

/-- C1: a completed player turn is accepted only in the PLAYER phase and
always ends in the AI phase; a completed AI turn is accepted only in the AI
phase and always ends in the PLAYER phase; `roll_initiative` never changes
the phase.  Hence along completed turns the phase alternates strictly
AI, PLAYER, AI, PLAYER, … -/
theorem phase_alternation :
    (∀ roll oid : Int, ∀ st : GameState, (play_player_turn roll oid st).2 = none →
        st.game.phase = Phase.PLAYER ∧ (play_player_turn roll oid st).1.game.phase = Phase.AI)
  ∧ (∀ pS pL : String → Option AIResponse, ∀ chat : Except String String, ∀ st : GameState,
        (play_ai_turn pS pL chat st).2 = none →
        st.game.phase = Phase.AI ∧ (play_ai_turn pS pL chat st).1.game.phase = Phase.PLAYER)
  ∧ (∀ draws : List Int, ∀ st : GameState,
        (roll_initiative draws st).1.game.phase = st.game.phase) := by
  refine ⟨?_, ?_, ?_⟩
  · intro roll oid st h
    by_cases hph : (st.game.phase == Phase.PLAYER) = true
    · refine ⟨by simpa using hph, ?_⟩
      rcases play_player_turn_none_or_phase roll oid st with hk | hk
      · exact hk
      · exact absurd h hk
    · rw [play_player_turn, if_neg hph] at h
      simp at h
  · intro pS pL chat st h
    by_cases hph : (st.game.phase == Phase.AI) = true
    · refine ⟨by simpa using hph, ?_⟩
      rw [play_ai_turn, if_pos hph] at h ⊢
      by_cases ht : (st.game.actual_turn == 0) = true
      · rw [if_pos ht] at h ⊢
        rcases ai_turn_zero_none_or pS chat st with hk | hk
        · exact hk
        · exact absurd h hk
      · rw [if_neg ht] at h ⊢
        rcases ai_turn_pos_none_or pS pL chat st with hk | hk
        · exact hk
        · exact absurd h hk
    · rw [play_ai_turn, if_neg hph] at h
      simp at h
  · intro draws st
    unfold roll_initiative
    dsimp only
    split
    · rfl
    · split
      · rfl
      · rfl

/-- C1 witness: a completed player turn, a completed turn-0 AI turn and a
completed initiative roll on concrete states, with the phase transitions
delivered by the theorem. -/
theorem phase_alternation_witness :
    ((play_player_turn 50 1 stPlayer).2 = none
      ∧ stPlayer.game.phase = Phase.PLAYER
      ∧ (play_player_turn 50 1 stPlayer).1.game.phase = Phase.AI)
  ∧ ((play_ai_turn (pSome respBienvenue) pNone (Except.ok ("raw")) stTurn0).2 = none
      ∧ stTurn0.game.phase = Phase.AI
      ∧ (play_ai_turn (pSome respBienvenue) pNone (Except.ok ("raw")) stTurn0).1.game.phase
          = Phase.PLAYER)
  ∧ (roll_initiative [10, 8] stPlayer).1.game.phase = stPlayer.game.phase := by
  have h1 : (play_player_turn 50 1 stPlayer).2 = none := rfl
  have h2 : (play_ai_turn (pSome respBienvenue) pNone (Except.ok ("raw")) stTurn0).2 = none := rfl
  obtain ⟨a1, b1⟩ := phase_alternation.1 50 1 stPlayer h1
  obtain ⟨a2, b2⟩ := phase_alternation.2.1 (pSome respBienvenue) pNone (Except.ok ("raw")) stTurn0 h2
  exact ⟨⟨h1, a1, b1⟩, ⟨h2, a2, b2⟩, phase_alternation.2.2 [10, 8] stPlayer⟩

/-- C6: a `player_turn` invoked in the AI phase, with no history on file,
or with an `option_id` matching no pending option fails with the
corresponding 400/404 error, and every failing `player_turn` leaves the
state exactly unchanged. -/
theorem player_turn_invalid_no_mutation :
    (∀ roll oid : Int, ∀ st : GameState, (play_player_turn roll oid st).2 ≠ none →
        (play_player_turn roll oid st).1 = st)
  ∧ (∀ roll oid : Int, ∀ st : GameState, st.game.phase = Phase.AI →
        play_player_turn roll oid st
          = (st, some (Err.badRequest ("It\x27s not the player\x27s turn"))))
  ∧ (∀ roll oid : Int, ∀ st : GameState, ∀ a : Player, st.game.phase = Phase.PLAYER →
        st.players.find? (fun p => some p.id == st.game.current_player_id) = some a →
        st.history = [] →
        play_player_turn roll oid st
          = (st, some (Err.notFound ("No history found for this game"))))
  ∧ (∀ roll oid : Int, ∀ st : GameState, ∀ a : Player, ∀ last : History,
        st.game.phase = Phase.PLAYER →
        st.players.find? (fun p => some p.id == st.game.current_player_id) = some a →
        st.history.getLast? = some last →
        last.result.options.find? (fun o => o.id == some oid) = none →
        play_player_turn roll oid st
          = (st, some (Err.badRequest ("Invalid option selected")))) := by
  refine ⟨?_, ?_, ?_, ?_⟩
  · intro roll oid st h
    rcases play_player_turn_none_or_id roll oid st with h1 | h1
    · exact absurd h1 h
    · exact h1
  · intro roll oid st hph
    simp [play_player_turn, hph]
  · intro roll oid st a hph hfind hhist
    simp [play_player_turn, hph, hfind, hhist]
  · intro roll oid st a last hph hfind hlast hopt
    simp [play_player_turn, hph, hfind, hlast, hopt]

/-- C6 witness: the three failure modes on concrete states, each leaving
the state untouched. -/
theorem player_turn_invalid_no_mutation_witness :
    (play_player_turn 50 99 stAIph).1 = stAIph
  ∧ play_player_turn 50 99 stAIph
      = (stAIph, some (Err.badRequest ("It\x27s not the player\x27s turn")))
  ∧ play_player_turn 50 1 stNoHist
      = (stNoHist, some (Err.notFound ("No history found for this game")))
  ∧ play_player_turn 50 99 stPlayer
      = (stPlayer, some (Err.badRequest ("Invalid option selected"))) :=
  ⟨player_turn_invalid_no_mutation.1 50 99 stAIph (by decide),
   player_turn_invalid_no_mutation.2.1 50 99 stAIph rfl,
   player_turn_invalid_no_mutation.2.2.1 50 1 stNoHist alice rfl rfl rfl,
   player_turn_invalid_no_mutation.2.2.2 50 99 stPlayer alice histTavern rfl rfl rfl rfl⟩

/-- C10: an option whose dict lacks a description key, or whose description
is the empty string, is rejected as an invalid selection (400) with no
mutation even when its id matches; an option lacking a `success_rate` key
is resolved with the default rate 1.0, which makes the outcome draw in
[1,100] always succeed. -/
theorem option_description_gate :
    (∀ roll oid : Int, ∀ st : GameState, ∀ a : Player, ∀ last : History, ∀ o : OptionPayload,
        st.game.phase = Phase.PLAYER →
        st.players.find? (fun p => some p.id == st.game.current_player_id) = some a →
        st.history.getLast? = some last →
        last.result.options.find? (fun q => q.id == some oid) = some o →
        pyFalsyStr o.description = true →
        play_player_turn roll oid st
          = (st, some (Err.badRequest ("Invalid option selected"))))
  ∧ (∀ roll oid : Int, ∀ st : GameState, ∀ a : Player, ∀ last : History, ∀ o : OptionPayload,
        ∀ d : String,
        st.game.phase = Phase.PLAYER →
        st.players.find? (fun p => some p.id == st.game.current_player_id) = some a →
        st.history.getLast? = some last →
        last.result.options.find? (fun q => q.id == some oid) = some o →
        o.description = some d → d ≠ "" →
        o.success_rate = none →
        1 ≤ roll → roll ≤ 100 →
        (play_player_turn roll oid st).2 = none ∧
        (play_player_turn roll oid st).1.game.successed_turns
          = st.game.successed_turns + 1) := by
  constructor
  · intro roll oid st a last o hph hfind hlast hopt hdesc
    simp [play_player_turn, hph, hfind, hlast, hopt, hdesc]
  · intro roll oid st a last o d hph hfind hlast hopt hd hne hrate h1 h100
    have hdesc : pyFalsyStr o.description = false := by
      rw [hd]
      simpa [pyFalsyStr] using hne
    have hthr : pyIntOfRat (ratMul ((o.success_rate).getD 1) 100) = 100 := by
      rw [hrate]
      decide
    have hsucc : (decide (roll ≤ pyIntOfRat (ratMul ((o.success_rate).getD 1) 100))) = true := by
      rw [hthr]
      exact decide_eq_true h100
    simp only [play_player_turn, hph, hfind, hlast, hopt, hdesc, hsucc]
    constructor
    · simp
    · simp only [beq_self_eq_true, if_true, Bool.false_eq_true, if_false]
      split
      · rfl
      · rfl

/-- C10 witness: on `stPlayer`, choosing option 4 (no description key) and
option 5 (empty description) is rejected without mutation; choosing option
3 (no `success_rate` key) completes and counts as a success. -/
theorem option_description_gate_witness :
    play_player_turn 50 4 stPlayer = (stPlayer, some (Err.badRequest ("Invalid option selected")))
  ∧ play_player_turn 50 5 stPlayer = (stPlayer, some (Err.badRequest ("Invalid option selected")))
  ∧ (play_player_turn 50 3 stPlayer).2 = none
  ∧ (play_player_turn 50 3 stPlayer).1.game.successed_turns
      = stPlayer.game.successed_turns + 1 :=
  ⟨option_description_gate.1 50 4 stPlayer alice histTavern optNoDesc rfl rfl rfl rfl rfl,
   option_description_gate.1 50 5 stPlayer alice histTavern optEmptyDesc rfl rfl rfl rfl rfl,
   (option_description_gate.2 50 3 stPlayer alice histTavern optNoRate ("Observer la salle")
      rfl rfl rfl rfl rfl (by decide) rfl (by decide) (by decide)).1,
   (option_description_gate.2 50 3 stPlayer alice histTavern optNoRate ("Observer la salle")
      rfl rfl rfl rfl rfl (by decide) rfl (by decide) (by decide)).2⟩

/-- C3: a resolved player turn draws in [1,100] and succeeds exactly when
the draw is at most `success_rate × 100`; the acting player's stats do not
enter the outcome (the success indicator below depends only on the draw and
the option's declared rate). -/
theorem player_turn_success_threshold :
    ∀ roll oid : Int, ∀ st : GameState, ∀ a : Player, ∀ last : History, ∀ o : OptionPayload,
      ∀ (d : String) (r : Rat),
      st.game.phase = Phase.PLAYER →
      st.players.find? (fun p => some p.id == st.game.current_player_id) = some a →
      st.history.getLast? = some last →
      last.result.options.find? (fun q => q.id == some oid) = some o →
      o.description = some d → d ≠ "" →
      o.success_rate = some r → 0 ≤ r →
      (play_player_turn roll oid st).2 = none ∧
      (play_player_turn roll oid st).1.game.successed_turns
        = st.game.successed_turns + (if (roll : ℚ) ≤ r * 100 then 1 else 0) := by
  intro roll oid st a last o d r hph hfind hlast hopt hd hne hr hr0
  have hdesc : pyFalsyStr o.description = false := by
    rw [hd]
    simpa [pyFalsyStr] using hne
  have hiff : (roll ≤ pyIntOfRat (ratMul ((o.success_rate).getD 1) 100)) ↔ ((roll : ℚ) ≤ r * 100) := by
    rw [hr]
    show roll ≤ pyIntOfRat (ratMul r 100) ↔ _
    rw [ratMul_eq]
    exact le_pyIntOfRat_iff roll (r * 100) (by positivity)
  by_cases hs : (roll : ℚ) ≤ r * 100
  · have hsucc : (decide (roll ≤ pyIntOfRat (ratMul ((o.success_rate).getD 1) 100))) = true :=
      decide_eq_true (hiff.mpr hs)
    simp only [play_player_turn, hph, hfind, hlast, hopt, hdesc, hsucc]
    constructor
    · simp
    · simp only [beq_self_eq_true, if_true, Bool.false_eq_true, if_false, if_pos hs]
      split
      · rfl
      · rfl
  · have hsucc : (decide (roll ≤ pyIntOfRat (ratMul ((o.success_rate).getD 1) 100))) = false :=
      decide_eq_false (fun hc => hs (hiff.mp hc))
    simp only [play_player_turn, hph, hfind, hlast, hopt, hdesc, hsucc]
    constructor
    · simp
    · simp only [beq_self_eq_true, if_true, Bool.false_eq_true, if_false, if_neg hs,
        Nat.add_zero]
      split
      · rfl
      · rfl

/-- C3 witness (Scenario B): with the draw stubbed to 50, the rate-0.9
option succeeds (50 ≤ 90) and the rate-0.1 option fails (50 > 10). -/
theorem player_turn_success_threshold_witness :
    (play_player_turn 50 1 stPlayer).2 = none
  ∧ (play_player_turn 50 1 stPlayer).1.game.successed_turns
      = stPlayer.game.successed_turns + 1
  ∧ (play_player_turn 50 2 stPlayer).2 = none
  ∧ (play_player_turn 50 2 stPlayer).1.game.successed_turns
      = stPlayer.game.successed_turns
  ∧ (((50 : Int) : ℚ) ≤ mkRat 9 10 * 100)
  ∧ ¬ (((50 : Int) : ℚ) ≤ mkRat 1 10 * 100) := by
  have h09 : (((50 : Int) : ℚ) ≤ mkRat 9 10 * 100) := by
    rw [Rat.mkRat_eq_div]
    norm_num
  have h01 : ¬ (((50 : Int) : ℚ) ≤ mkRat 1 10 * 100) := by
    rw [Rat.mkRat_eq_div]
    norm_num
  have t1 := player_turn_success_threshold 50 1 stPlayer alice histTavern optTalk
    ("Parler aux mercenaires") (mkRat 9 10) rfl rfl rfl rfl rfl (by decide) rfl (by decide)
  have t2 := player_turn_success_threshold 50 2 stPlayer alice histTavern optSneak
    ("Se faufiler dans l\x27ombre") (mkRat 1 10) rfl rfl rfl rfl rfl (by decide) rfl (by decide)
  refine ⟨t1.1, ?_, t2.1, ?_, h09, h01⟩
  · rw [t1.2, if_pos h09]
  · rw [t2.2, if_neg h01]
    exact Nat.add_zero _

/-- C5 (amended): a completed player turn appends exactly one history
entry, with actor USER, the acting player's reference, empty options, the
templated narration carrying the computed success/failure qualifier — and a
`success` flag that is recorded literally as `True`, not as the computed
outcome. -/
theorem player_turn_history_append :
    ∀ roll oid : Int, ∀ st : GameState, ∀ a : Player, ∀ last : History, ∀ o : OptionPayload,
      ∀ d : String,
      st.game.phase = Phase.PLAYER →
      st.players.find? (fun p => some p.id == st.game.current_player_id) = some a →
      st.history.getLast? = some last →
      last.result.options.find? (fun q => q.id == some oid) = some o →
      o.description = some d → d ≠ "" →
      (play_player_turn roll oid st).2 = none ∧
      (play_player_turn roll oid st).1.history = st.history ++
        [{ game_id := st.game.id
           player_id := some a.id
           action_role := ChatRole.USER
           success := some true
           result :=
             { narration := playerTurnNarration a.display_name oid d
                 (decide (roll ≤ pyIntOfRat (ratMul ((o.success_rate).getD 1) 100)))
               options := [] } }] := by
  intro roll oid st a last o d hph hfind hlast hopt hd hne
  have hdesc : pyFalsyStr o.description = false := by
    rw [hd]
    simpa [pyFalsyStr] using hne
  simp only [play_player_turn, hph, hfind, hlast, hopt, hdesc]
  constructor
  · simp
  · simp only [beq_self_eq_true, if_true, Bool.false_eq_true, if_false, hd, Option.getD_some]

/-- C5 witness: the appended entry on a concrete successful turn. -/
theorem player_turn_history_append_witness :
    (play_player_turn 50 1 stPlayer).2 = none ∧
    (play_player_turn 50 1 stPlayer).1.history = stPlayer.history ++
      [{ game_id := stPlayer.game.id
         player_id := some alice.id
         action_role := ChatRole.USER
         success := some true
         result :=
           { narration := playerTurnNarration alice.display_name 1
               ("Parler aux mercenaires")
               (decide ((50 : Int) ≤ pyIntOfRat (ratMul ((optTalk.success_rate).getD 1) 100)))
             options := [] } }] :=
  player_turn_history_append 50 1 stPlayer alice histTavern optTalk
    ("Parler aux mercenaires") rfl rfl rfl rfl rfl (by decide)

/-- C5 counterexample: on a completed turn whose computed outcome is a
failure (draw 50 against rate 0.1), the recorded `success` flag is still
`True`; the failure shows up only in the narration qualifier. -/
theorem history_success_flag_counterexample :
    (play_player_turn 50 2 stPlayer).2 = none
  ∧ ((play_player_turn 50 2 stPlayer).1.history.getLast?).map History.success
      = some (some true)
  ∧ ((play_player_turn 50 2 stPlayer).1.history.getLast?).map (fun e => e.result.narration)
      = some (playerTurnNarration ("Alice") 2 ("Se faufiler dans l\x27ombre") false)
  ∧ ¬ (((50 : Int) : ℚ) ≤ mkRat 1 10 * 100) := by
  refine ⟨rfl, rfl, rfl, ?_⟩
  rw [Rat.mkRat_eq_div]
  norm_num

/-- C7 (amended): every failing `ai_turn` leaves the game row (phase, turn,
current player) and the players untouched, and at most one History entry
remains committed from the attempt; on a turn > 0 with a resolvable current
player, a failure leaves the state entirely unchanged, so the re-invocation
is safe.  (On turn 0 the prompt entry committed before the narrator call
survives the failure — see the counterexample.) -/
theorem ai_turn_failure_state :
    (∀ pS pL : String → Option AIResponse, ∀ chat : Except String String, ∀ st : GameState,
        (play_ai_turn pS pL chat st).2 ≠ none →
        (play_ai_turn pS pL chat st).1.game = st.game
        ∧ (play_ai_turn pS pL chat st).1.players = st.players
        ∧ ((play_ai_turn pS pL chat st).1.history = st.history
            ∨ ∃ he, (play_ai_turn pS pL chat st).1.history = st.history ++ [he]))
  ∧ (∀ pS pL : String → Option AIResponse, ∀ chat : Except String String, ∀ st : GameState,
        st.game.actual_turn ≠ 0 →
        (∃ p ∈ st.players, some p.id = st.game.current_player_id) →
        (play_ai_turn pS pL chat st).2 ≠ none →
        (play_ai_turn pS pL chat st).1 = st) := by
  constructor
  · intro pS pL chat st h
    by_cases hph : (st.game.phase == Phase.AI) = true
    · rw [play_ai_turn, if_pos hph] at h ⊢
      by_cases ht : (st.game.actual_turn == 0) = true
      · rw [if_pos ht] at h ⊢
        rcases ai_turn_zero_fail_shape pS chat st with hk | hk
        · exact absurd hk h
        · exact hk
      · rw [if_neg ht] at h ⊢
        rcases ai_turn_pos_fail_shape pS pL chat st with hk | hk
        · exact absurd hk h
        · exact hk
    · rw [play_ai_turn, if_neg hph] at h ⊢
      exact ⟨rfl, rfl, Or.inl rfl⟩
  · intro pS pL chat st ht hcur h
    by_cases hph : (st.game.phase == Phase.AI) = true
    · rw [play_ai_turn, if_pos hph] at h ⊢
      rw [if_neg (by simpa using ht)] at h ⊢
      rcases ai_turn_pos_id_or pS pL chat st hcur with hk | hk
      · exact hk
      · exact absurd hk h
    · rw [play_ai_turn, if_neg hph] at h ⊢

/-- C7 witness: an upstream failure on a turn-0 attempt leaves the game row
and players unchanged with at most one committed entry, and the same
failure on a turn-1 state with a valid current player changes nothing. -/
theorem ai_turn_failure_state_witness :
    ((play_ai_turn pNone pNone (Except.error ("boom")) stTurn0).1.game = stTurn0.game
      ∧ (play_ai_turn pNone pNone (Except.error ("boom")) stTurn0).1.players = stTurn0.players
      ∧ ((play_ai_turn pNone pNone (Except.error ("boom")) stTurn0).1.history = stTurn0.history
          ∨ ∃ he, (play_ai_turn pNone pNone (Except.error ("boom")) stTurn0).1.history
              = stTurn0.history ++ [he]))
  ∧ (play_ai_turn pNone pNone (Except.error ("boom")) stAIturn1).1 = stAIturn1 :=
  ⟨ai_turn_failure_state.1 pNone pNone (Except.error ("boom")) stTurn0 (by decide),
   ai_turn_failure_state.2 pNone pNone (Except.error ("boom")) stAIturn1 (by decide)
     ⟨alice, by decide, rfl⟩ (by decide)⟩

/-- C7 counterexample: a turn-0 `ai_turn` failing with an upstream error
has already committed the prompt History entry (a USER entry), so a history
entry from the failed attempt remains. -/
theorem ai_turn_zero_failure_appends_counterexample :
    (play_ai_turn pNone pNone (Except.error ("boom")) stTurn0).2
        = some (Err.internal ("boom"))
  ∧ (play_ai_turn pNone pNone (Except.error ("boom")) stTurn0).1.history.length
      = stTurn0.history.length + 1
  ∧ ((play_ai_turn pNone pNone (Except.error ("boom")) stTurn0).1.history.getLast?).map
      History.action_role = some ChatRole.USER :=
  ⟨rfl, rfl, rfl⟩

/-- C9 (amended): an AI-turn response whose narration equals,
case-insensitively, the narration of the last History entry — of either
author, not specifically the preceding narrator-authored entry — is
rejected with a 500 error and the whole turn aborts with the state exactly
unchanged. -/
theorem repetition_guard_rejects_last :
    ∀ pS pL : String → Option AIResponse, ∀ raw : String, ∀ st : GameState,
      ∀ scen : Scenario, ∀ lastE : History, ∀ ai : AIResponse,
      st.game.phase = Phase.AI →
      st.game.actual_turn ≠ 0 →
      st.game.max_successed_turns ≠ 0 →
      st.scenario = some scen →
      st.history.getLast? = some lastE →
      pS raw = some ai →
      pyLower ai.narration = pyLower lastE.result.narration →
      play_ai_turn pS pL (Except.ok raw) st
        = (st, some (Err.internal ("AI response narration is identical to the last one, which is invalid."))) := by
  intro pS pL raw st scen lastE ai hph ht hmax hscen hlast hps hrep
  have hph' : (st.game.phase == Phase.AI) = true := by simp [hph]
  rw [play_ai_turn, if_pos hph', if_neg (by simpa using ht)]
  unfold ai_turn_pos
  rw [if_neg (by simpa using hmax)]
  obtain ⟨ms, hms⟩ := buildMessages_isOk scen
    (progressionMsg (ratMul (mkRat (st.game.successed_turns : Int)
      st.game.max_successed_turns) 100)) st.history
  rw [← hscen] at hms
  rw [hms]
  simp only [validateAiRaw, hps, hlast]
  have hbeq : (pyLower ai.narration == pyLower lastE.result.narration) = true := by
    simp [hrep]
  simp only [hbeq, if_true]

/-- C9 witness: a response repeating the last (player-authored) entry's
narration up to case is rejected and nothing changes. -/
theorem repetition_guard_rejects_last_witness :
    play_ai_turn (pSome respRepeatLast) pNone (Except.ok ("raw")) stAIturn1
      = (stAIturn1, some (Err.internal ("AI response narration is identical to the last one, which is invalid."))) :=
  repetition_guard_rejects_last (pSome respRepeatLast) pNone "raw" stAIturn1 scenIle
    histUserChoice respRepeatLast rfl (by decide) (by decide) rfl rfl rfl (by decide)

/-- C9 counterexample: a response whose narration equals, case-insensitively,
the narration of the immediately preceding narrator-authored entry
(`histTavern`, an ASSISTANT entry) but not that of the last (USER) entry is
accepted: the guard compares against the last entry of any author, so the
claimed rejection does not happen. -/
theorem repetition_guard_counterexample :
    stAIturn1.history = [histTavern, histUserChoice]
  ∧ histTavern.action_role = ChatRole.ASSISTANT
  ∧ histUserChoice.action_role = ChatRole.USER
  ∧ pyLower respRepeatAssistant.narration = pyLower histTavern.result.narration
  ∧ (play_ai_turn (pSome respRepeatAssistant) pNone (Except.ok ("raw")) stAIturn1).2 = none :=
  ⟨rfl, rfl, rfl, rfl, rfl⟩

/-- C8 (amended): the engine has two distinct recovery ladders, neither of
which is the claimed four-stage pipeline.  The `games.py` AI turn tries the
strict parse, then the lenient literal parse, and otherwise fails with no
extraction or fallback stage.  The `main.py` `game_action` ladder tries the
strict parse, then a strict parse of the regex-extracted JSON block, and
synthesizes the canned fallback only when no block is found at all; a block
that is found but fails to parse aborts with `ValidationFailure` even
though the fallback is always constructible. -/
theorem recovery_ladder_stages :
    (∀ pS pL : String → Option AIResponse, ∀ raw : String, ∀ r : AIResponse,
        pS raw = some r → validateAiRaw pS pL raw = Except.ok r)
  ∧ (∀ pS pL : String → Option AIResponse, ∀ raw : String, ∀ r : AIResponse,
        pS raw = none → pL raw = some r → validateAiRaw pS pL raw = Except.ok r)
  ∧ (∀ pS pL : String → Option AIResponse, ∀ raw : String,
        pS raw = none → pL raw = none →
        validateAiRaw pS pL raw
          = Except.error ("Invalid response format from AI (after fallback)"))
  ∧ (∀ pS : String → Option AIResponse, ∀ fj : String → Option String, ∀ fb : AIResponse,
        ∀ raw : String, ∀ r : AIResponse,
        pS raw = some r → game_action_validate pS fj fb raw = Except.ok r)
  ∧ (∀ pS : String → Option AIResponse, ∀ fj : String → Option String, ∀ fb : AIResponse,
        ∀ raw s : String, ∀ r : AIResponse,
        pS raw = none → fj raw = some s → pS s = some r →
        game_action_validate pS fj fb raw = Except.ok r)
  ∧ (∀ pS : String → Option AIResponse, ∀ fj : String → Option String, ∀ fb : AIResponse,
        ∀ raw s : String,
        pS raw = none → fj raw = some s → pS s = none →
        game_action_validate pS fj fb raw
          = Except.error ("Impossible de traiter la réponse de l\x27IA"))
  ∧ (∀ pS : String → Option AIResponse, ∀ fj : String → Option String, ∀ fb : AIResponse,
        ∀ raw : String,
        pS raw = none → fj raw = none →
        game_action_validate pS fj fb raw = Except.ok fb) := by
  refine ⟨?_, ?_, ?_, ?_, ?_, ?_, ?_⟩
  · intro pS pL raw r h
    simp [validateAiRaw, h]
  · intro pS pL raw r h1 h2
    simp [validateAiRaw, h1, h2]
  · intro pS pL raw h1 h2
    simp [validateAiRaw, h1, h2]
  · intro pS fj fb raw r h
    simp [game_action_validate, h]
  · intro pS fj fb raw s r h1 h2 h3
    simp [game_action_validate, h1, h2, h3]
  · intro pS fj fb raw s h1 h2 h3
    simp [game_action_validate, h1, h2, h3]
  · intro pS fj fb raw h1 h2
    simp [game_action_validate, h1, h2]

/-- C8 witness: each stage outcome of both ladders on concrete oracles. -/
theorem recovery_ladder_stages_witness :
    validateAiRaw (pSome respBienvenue) pNone ("raw") = Except.ok respBienvenue
  ∧ validateAiRaw pNone (pSome respBienvenue) ("raw") = Except.ok respBienvenue
  ∧ validateAiRaw pNone pNone ("raw")
      = Except.error ("Invalid response format from AI (after fallback)")
  ∧ game_action_validate (pSome respBienvenue) fjNone
      (create_fallback_response ("Alice") ("Explorer")) ("raw") = Except.ok respBienvenue
  ∧ game_action_validate pNone fjSome
      (create_fallback_response ("Alice") ("Explorer")) ("raw")
      = Except.error ("Impossible de traiter la réponse de l\x27IA")
  ∧ game_action_validate pNone fjNone
      (create_fallback_response ("Alice") ("Explorer")) ("raw")
      = Except.ok (create_fallback_response ("Alice") ("Explorer")) :=
  ⟨recovery_ladder_stages.1 (pSome respBienvenue) pNone "raw" respBienvenue rfl,
   recovery_ladder_stages.2.1 pNone (pSome respBienvenue) "raw" respBienvenue rfl rfl,
   recovery_ladder_stages.2.2.1 pNone pNone "raw" rfl rfl,
   recovery_ladder_stages.2.2.2.1 (pSome respBienvenue) fjNone
     (create_fallback_response ("Alice") ("Explorer")) "raw" respBienvenue rfl,
   recovery_ladder_stages.2.2.2.2.2.1 pNone fjSome
     (create_fallback_response ("Alice") ("Explorer")) "raw" "bloc" rfl rfl rfl,
   recovery_ladder_stages.2.2.2.2.2.2 pNone fjNone
     (create_fallback_response ("Alice") ("Explorer")) "raw" rfl rfl⟩

/-- C8 counterexample: a raw text in which a JSON-like block is found but
fails to parse makes the `game_action` ladder abort with the 500 error even
though the synthesized fallback (with its generic options) was
constructible, and the `games.py` ladder never has extraction or fallback
stages at all — contradicting the claimed single four-stage pipeline whose
fallback fires whenever stages 1-3 fail. -/
theorem recovery_ladder_counterexample :
    game_action_validate pNone fjSome (create_fallback_response ("Alice") ("Explorer"))
        ("pas du json")
      = Except.error ("Impossible de traiter la réponse de l\x27IA")
  ∧ (create_fallback_response ("Alice") ("Explorer")).options ≠ [] :=
  ⟨rfl, by decide⟩

/-- C2: with one injected draw in [1,20] per player, `roll_initiative` on a
game with players updates each player's initiative to draw plus the
"dexterity" stat (default 0), stores the players sorted by strictly
descending-compatible initiative with ties keeping input order (the
per-initiative filtrations of the output and of the updated input agree),
assigns orders 1..N along that order, and points `current_player_id` at the
order-1 player; with no players it fails with NotFound. -/
theorem roll_initiative_spec :
    (∀ draws : List Int, ∀ st : GameState,
        st.players ≠ [] → draws.length = st.players.length →
        (∀ d ∈ draws, 1 ≤ d ∧ d ≤ 20) →
        ∃ out : List Player, ∃ first : Player, ∃ rest : List Player,
          roll_initiative draws st
            = ({ st with players := out,
                         game := { st.game with current_player_id := some first.id } }, none)
          ∧ out = first :: rest
          ∧ ((out.map (fun p => { p with order := 0 })).Perm
              ((List.zipWith (fun p d =>
                  { p with initiative := d + pyDictGetD p.stats "dexterity" 0 })
                st.players draws).map (fun p => { p with order := 0 })))
          ∧ (out.map Player.initiative).Pairwise (fun a b => b ≤ a)
          ∧ out.map Player.order = List.range' 1 st.players.length
          ∧ (∀ m : Int,
              (out.filter (fun p => p.initiative == m)).map Player.id
                = ((List.zipWith (fun p d =>
                      { p with initiative := d + pyDictGetD p.stats "dexterity" 0 })
                    st.players draws).filter (fun p => p.initiative == m)).map Player.id))
  ∧ (∀ draws : List Int, ∀ st : GameState, st.players = [] →
        roll_initiative draws st
          = (st, some (Err.notFound ("No players found for this game")))) := by
  constructor
  · intro draws st hne hlen hdr
    have hempty : st.players.isEmpty = false := by
      cases hp : st.players with
      | nil => exact absurd hp hne
      | cons a l => rfl
    have hulen : (List.zipWith (fun p d =>
        { p with initiative := d + pyDictGetD p.stats "dexterity" 0 })
          st.players draws).length = st.players.length := by
      rw [List.length_zipWith, hlen, Nat.min_self]
    have hperm : (pySorted (fun a b => decide (b.initiative < a.initiative))
        (List.zipWith (fun p d =>
          { p with initiative := d + pyDictGetD p.stats "dexterity" 0 })
            st.players draws)).Perm
        (List.zipWith (fun p d =>
          { p with initiative := d + pyDictGetD p.stats "dexterity" 0 })
            st.players draws) := pySorted_perm _ _
    have hslen : (pySorted (fun a b => decide (b.initiative < a.initiative))
        (List.zipWith (fun p d =>
          { p with initiative := d + pyDictGetD p.stats "dexterity" 0 })
            st.players draws)).length = st.players.length := by
      rw [hperm.length_eq, hulen]
    have hsne : pySorted (fun a b => decide (b.initiative < a.initiative))
        (List.zipWith (fun p d =>
          { p with initiative := d + pyDictGetD p.stats "dexterity" 0 })
            st.players draws) ≠ [] := by
      intro h0
      rw [h0] at hslen
      simp at hslen
      exact hne (List.length_eq_zero.mp hslen.symm)
    obtain ⟨f, r, hfr⟩ : ∃ f r, assignOrders (pySorted
        (fun a b => decide (b.initiative < a.initiative))
        (List.zipWith (fun p d =>
          { p with initiative := d + pyDictGetD p.stats "dexterity" 0 })
            st.players draws)) 0 = f :: r := by
      cases hs : pySorted (fun a b => decide (b.initiative < a.initiative))
          (List.zipWith (fun p d =>
            { p with initiative := d + pyDictGetD p.stats "dexterity" 0 })
              st.players draws) with
      | nil => exact absurd hs hsne
      | cons q qs => exact ⟨{ q with order := 1 }, assignOrders qs 1, rfl⟩
    refine ⟨f :: r, f, r, roll_initiative_eq draws st hempty f r hfr, rfl, ?_, ?_, ?_, ?_⟩
    · rw [← hfr, assignOrders_map_eraseOrder]
      exact hperm.map _
    · rw [← hfr, assignOrders_map_initiative]
      exact List.pairwise_map.mpr (pySorted_pairwise_initiative _)
    · rw [← hfr, assignOrders_map_order, hslen]
    · intro m
      rw [← hfr, assignOrders_filter_initiative]
      refine congrArg (List.map Player.id) (pySorted_filter _ _ ?_ _)
      intro x y hx hyx
      have hx' : x.initiative = m := by simpa using hx
      have hlt : x.initiative < y.initiative := by simpa using hyx
      have hym : y.initiative ≠ m := by omega
      simpa using hym
  · intro draws st hp
    unfold roll_initiative
    rw [if_pos (by simp [hp])]

/-- C2 witness (Scenario A): players with dexterity 5 and 12, draws 10 and
8, give initiatives 15 and 20; the dexterity-12 player ends with order 1
and becomes the current player; a game without players fails NotFound. -/
theorem roll_initiative_spec_witness :
    (∃ out : List Player, ∃ first : Player, ∃ rest : List Player,
        roll_initiative [10, 8] stPlayer
          = ({ stPlayer with players := out,
                             game := { stPlayer.game with
                                         current_player_id := some first.id } }, none)
        ∧ out = first :: rest
        ∧ ((out.map (fun p => { p with order := 0 })).Perm
            ((List.zipWith (fun p d =>
                { p with initiative := d + pyDictGetD p.stats "dexterity" 0 })
              stPlayer.players [10, 8]).map (fun p => { p with order := 0 })))
        ∧ (out.map Player.initiative).Pairwise (fun a b => b ≤ a)
        ∧ out.map Player.order = List.range' 1 stPlayer.players.length
        ∧ (∀ m : Int,
            (out.filter (fun p => p.initiative == m)).map Player.id
              = ((List.zipWith (fun p d =>
                    { p with initiative := d + pyDictGetD p.stats "dexterity" 0 })
                  stPlayer.players [10, 8]).filter (fun p => p.initiative == m)).map Player.id))
  ∧ (roll_initiative [10, 8] stPlayer).1.players.map (fun p => (p.id, p.initiative, p.order))
      = [(2, 20, 1), (1, 15, 2)]
  ∧ (roll_initiative [10, 8] stPlayer).1.game.current_player_id = some 2
  ∧ roll_initiative [3] stNoPlayers
      = (stNoPlayers, some (Err.notFound ("No players found for this game"))) :=
  ⟨roll_initiative_spec.1 [10, 8] stPlayer (by decide) (by decide) (by decide),
   rfl, rfl,
   roll_initiative_spec.2 [3] stNoPlayers rfl⟩

theorem hpAfter_mem (hp k c : Rat) :
    0 ≤ hpAfter hp k (some c) ∧ hpAfter hp k (some c) ≤ 100 :=
  ⟨le_max_left 0 _, max_le (by norm_num) (min_le_left _ _)⟩

theorem mpAfter_mem (mp c : Rat) :
    0 ≤ mpAfter mp (some c) ∧ mpAfter mp (some c) ≤ 100 :=
  ⟨le_max_left 0 _, max_le (by norm_num) (min_le_left _ _)⟩

/-- C4 (amended): a completed `player_turn` of the current engine leaves
every player — in particular hp and mp — unchanged; the
`health/mana_point_change × 100` deltas with clamping to [0,100] are
applied by the legacy `choose_option` operation, where the health delta is
doubled when a low-adjusted-rate dice roll fails. -/
theorem hp_mp_delta_clamp :
    (∀ roll oid : Int, ∀ st : GameState,
        (play_player_turn roll oid st).1.players = st.players)
  ∧ (∀ roll20 oid : Int, ∀ pid : String, ∀ g : MainGame, ∀ player : Character,
        ∀ last : MainAction, ∀ chosen : OptionPayload, ∀ rs : String, ∀ sr : Rat,
        g.players.find? (fun p => p.player_id == pid) = some player →
        g.history.getLast? = some last →
        last.options.isEmpty = false →
        findOptById last.options oid = Except.ok (some chosen) →
        chosen.related_stat = some rs →
        chosen.success_rate = some sr →
        (choose_option roll20 pid oid g).2 = none
        ∧ ∃ k : Rat, (k = 1 ∨ k = 2)
            ∧ (choose_option roll20 pid oid g).1.players.find? (fun p => p.player_id == pid)
                = some { player with
                    hp := hpAfter player.hp k chosen.health_point_change,
                    mp := mpAfter player.mp chosen.mana_point_change }
            ∧ (∀ c : Rat, chosen.health_point_change = some c →
                0 ≤ hpAfter player.hp k chosen.health_point_change
                ∧ hpAfter player.hp k chosen.health_point_change ≤ 100)
            ∧ (∀ c : Rat, chosen.mana_point_change = some c →
                0 ≤ mpAfter player.mp chosen.mana_point_change
                ∧ mpAfter player.mp chosen.mana_point_change ≤ 100)) := by
  constructor
  · exact fun roll oid st => play_player_turn_players roll oid st
  · intro roll20 oid pid g player last chosen rs sr hfp hlast hopts hfo hrs hsr
    simp only [choose_option, hfp, hlast, hopts, hfo, hrs, hsr, Bool.false_eq_true, if_false]
    refine ⟨trivial, ?_⟩
    by_cases hdice : sr * mkRat (pyDictGetD player.stats rs 10) 10 < mkRat 1 2
    · by_cases hsucc : (1 - sr * mkRat (pyDictGetD player.stats rs 10) 10) * 20
          ≤ ((roll20 : Int) : ℚ)
      · refine ⟨1, Or.inl rfl, ?_, ?_, ?_⟩
        · rw [find?_updateFirstBy, hfp]
          · cases hhc : chosen.health_point_change <;> cases hmc : chosen.mana_point_change <;>
              simp [hdice, hsucc, hhc, hmc, hpAfter, mpAfter, pyMax_eq, pyMin_eq, ratAdd_eq,
                ratMul_eq, ratSub_eq, ratOfInt_eq, one_mul]
          · exact fun x hx => hx
        · intro c hc
          rw [hc]
          exact hpAfter_mem player.hp 1 c
        · intro c hc
          rw [hc]
          exact mpAfter_mem player.mp c
      · refine ⟨2, Or.inr rfl, ?_, ?_, ?_⟩
        · rw [find?_updateFirstBy, hfp]
          · cases hhc : chosen.health_point_change <;> cases hmc : chosen.mana_point_change <;>
              (simp [hdice, hsucc, hhc, hmc, hpAfter, mpAfter, pyMax_eq, pyMin_eq, ratAdd_eq,
                ratMul_eq, ratSub_eq, ratOfInt_eq]
               try ring_nf)
          · exact fun x hx => hx
        · intro c hc
          rw [hc]
          exact hpAfter_mem player.hp 2 c
        · intro c hc
          rw [hc]
          exact mpAfter_mem player.mp c
    · refine ⟨1, Or.inl rfl, ?_, ?_, ?_⟩
      · rw [find?_updateFirstBy, hfp]
        · cases hhc : chosen.health_point_change <;> cases hmc : chosen.mana_point_change <;>
            simp [hdice, hhc, hmc, hpAfter, mpAfter, pyMax_eq, pyMin_eq, ratAdd_eq,
              ratMul_eq, ratSub_eq, ratOfInt_eq, one_mul]
        · exact fun x hx => hx
      · intro c hc
        rw [hc]
        exact hpAfter_mem player.hp 1 c
      · intro c hc
        rw [hc]
        exact mpAfter_mem player.mp c

/-- C4 witness: a completed player turn leaves the players untouched, and a
concrete `choose_option` run applies the ×100 deltas clamped to [0,100]
(here 100 hp − 20 → 80 and 40 mp + 10 → 50). -/
theorem hp_mp_delta_clamp_witness :
    (play_player_turn 50 1 stPlayer).1.players = stPlayer.players
  ∧ ((choose_option 7 ("p1") 1 mainG).2 = none
      ∧ ∃ k : Rat, (k = 1 ∨ k = 2)
          ∧ (choose_option 7 ("p1") 1 mainG).1.players.find? (fun p => p.player_id == "p1")
              = some { charAlice with
                  hp := hpAfter charAlice.hp k mainOpt.health_point_change,
                  mp := mpAfter charAlice.mp mainOpt.mana_point_change }
          ∧ (∀ c : Rat, mainOpt.health_point_change = some c →
              0 ≤ hpAfter charAlice.hp k mainOpt.health_point_change
              ∧ hpAfter charAlice.hp k mainOpt.health_point_change ≤ 100)
          ∧ (∀ c : Rat, mainOpt.mana_point_change = some c →
              0 ≤ mpAfter charAlice.mp mainOpt.mana_point_change
              ∧ mpAfter charAlice.mp mainOpt.mana_point_change ≤ 100))
  ∧ (choose_option 7 ("p1") 1 mainG).1.players.map Character.hp = [80]
  ∧ (choose_option 7 ("p1") 1 mainG).1.players.map Character.mp = [50] :=
  ⟨hp_mp_delta_clamp.1 50 1 stPlayer,
   hp_mp_delta_clamp.2 7 1 "p1" mainG charAlice mainAct mainOpt "intelligence"
     (mkRat 8 10) rfl rfl rfl rfl rfl rfl,
   by decide, by decide⟩

/-- C4 counterexample: a completed `player_turn` resolving an option with
`health_point_change = -0.5` leaves the acting player's hp at 100, whereas
the claimed delta-with-clamp application would give 50. -/
theorem player_turn_hp_claim_counterexample :
    (play_player_turn 50 1 stPotion).2 = none
  ∧ (play_player_turn 50 1 stPotion).1.players = stPotion.players
  ∧ alice.hp = 100
  ∧ optPotion.health_point_change = some (mkRat (-1) 2)
  ∧ max 0 (min 100 (alice.hp + mkRat (-1) 2 * 100)) ≠ alice.hp := by
  refine ⟨rfl, rfl, rfl, rfl, ?_⟩
  rw [Rat.mkRat_eq_div]
  norm_num [alice, min_def, max_def]

end RpgGame
